import Mathlib

/-!
Verification development for the weekly-report synthesis engine of an
OpenProject MCP server (sources: `src/utils/report_formatter.py`,
`src/tools/weekly_reports.py`).

Python dictionaries representing work packages, time entries, projects and
members are embedded as Lean structures holding exactly the fields the code
reads; `dict.get(k, default)` on a possibly-missing field becomes
`Option.getD`.  Python strings are Lean `String`s; `str.lower()` is
`pyLower` (the labels involved are ASCII) and the Python substring
test `needle in hay` is infix containment on the character lists.
Python floats (hours) are modelled as rationals.
-/

namespace OPMCP

/-- Python `s.lower()`.  The labels the code matches on are ASCII, where
`Char.toLower` agrees with Python. -/
def pyLower (s : String) : String := String.mk (s.toList.map Char.toLower)

/-- Auxiliary scan for the substring test: does `n` occur as a prefix of
some suffix of the second list? -/
def strInAux (n : List Char) : List Char → Bool
  | [] => n.isPrefixOf []
  | c :: cs => n.isPrefixOf (c :: cs) || strInAux n cs

/-- Python `needle in hay` substring test. -/
def strIn (needle hay : String) : Bool :=
  strInAux needle.toList hay.toList

/-- Embedding of a work-package dictionary: exactly the fields read by the
report code.  `none` models a missing key (or a `None` value); fields read
with `.get(k, '')` and only ever defaulted to `''` are plain strings. -/
structure WorkItem where
  id : Option Int := none
  subject : Option String := none
  embeddedStatusName : Option String := none
  linksStatusTitle : Option String := none
  embeddedTypeName : Option String := none
  embeddedAssigneeName : Option String := none
  createdAt : String := ""
  updatedAt : String := ""
  closedOn : String := ""
  closedAt : String := ""
  dueDate : Option String := none
deriving Repr, DecidableEq, Inhabited

/-- Embedding of a time-entry dictionary (fields read by
`calculate_metrics`).  `hours` models `float(te.get('hours', 0))`. -/
structure TimeEntry where
  hours : ℚ := 0
  activityName : Option String := none
deriving Repr, DecidableEq, Inhabited

/-- Two-tier status-label lookup shared (verbatim, duplicated) by
`calculate_metrics` (lines 39-45) and `group_by_status` (lines 105-111):
the lowercased `_embedded.status.name`, falling back to the lowercased
`_links.status.title` when the primary is empty or `"unknown"`. -/
def statusLabel (wp : WorkItem) : String :=
  let status_name := pyLower (wp.embeddedStatusName.getD "")
  if status_name = "" || status_name = "unknown" then
    pyLower (wp.linksStatusTitle.getD "")
  else status_name

/-- The five status categories of the report (plus `other`, which exists
only as a bucket of `group_by_status`). -/
inductive StatusCategory where
  | done
  | in_progress
  | planned
  | blocked
  | de_scoped
deriving Repr, DecidableEq, Inhabited

/-- The classification chain of `group_by_status` (lines 114-132) as a
single function of the resolved label: empty/unknown, done-keywords,
progress-keywords, `blocked`, rejected/cancelled, planned-keywords,
default planned. -/
def categorize (status_name : String) : StatusCategory :=
  if status_name = "" || status_name = "unknown" then .planned
  else if strIn "closed" status_name || strIn "done" status_name ||
          strIn "resolved" status_name || strIn "completed" status_name ||
          strIn "finished" status_name then .done
  else if strIn "progress" status_name || strIn "development" status_name ||
          strIn "implementing" status_name then .in_progress
  else if strIn "blocked" status_name then .blocked
  else if strIn "rejected" status_name || strIn "cancelled" status_name then .de_scoped
  else if strIn "new" status_name || strIn "open" status_name ||
          strIn "specified" status_name || strIn "to do" status_name then .planned
  else .planned

/-- The classification chain of `calculate_metrics` (lines 47-60), which
differs from `categorize` in that it has no rejected/cancelled branch:
such labels fall through to the default `planned`. -/
def metricsCategorize (status_name : String) : StatusCategory :=
  if status_name = "" || status_name = "unknown" then .planned
  else if strIn "closed" status_name || strIn "done" status_name ||
          strIn "resolved" status_name || strIn "completed" status_name ||
          strIn "finished" status_name then .done
  else if strIn "progress" status_name || strIn "development" status_name ||
          strIn "implementing" status_name then .in_progress
  else if strIn "blocked" status_name then .blocked
  else if strIn "new" status_name || strIn "open" status_name ||
          strIn "specified" status_name || strIn "to do" status_name then .planned
  else .planned

/-- Result dictionary of `group_by_status`. -/
structure Groups where
  done : List WorkItem := []
  in_progress : List WorkItem := []
  planned : List WorkItem := []
  blocked : List WorkItem := []
  de_scoped : List WorkItem := []
  other : List WorkItem := []
deriving Repr, DecidableEq, Inhabited

/-- Body of the `for wp in work_packages` loop of `group_by_status`
(lines 103-132): resolve the label, then append `wp` to the bucket chosen
by the if/elif chain. -/
def groupStep (g : Groups) (wp : WorkItem) : Groups :=
  let status_name := statusLabel wp
  if status_name = "" || status_name = "unknown" then
    { g with planned := g.planned ++ [wp] }
  else if strIn "closed" status_name || strIn "done" status_name ||
          strIn "resolved" status_name || strIn "completed" status_name ||
          strIn "finished" status_name then
    { g with done := g.done ++ [wp] }
  else if strIn "progress" status_name || strIn "development" status_name ||
          strIn "implementing" status_name then
    { g with in_progress := g.in_progress ++ [wp] }
  else if strIn "blocked" status_name then
    { g with blocked := g.blocked ++ [wp] }
  else if strIn "rejected" status_name || strIn "cancelled" status_name then
    { g with de_scoped := g.de_scoped ++ [wp] }
  else if strIn "new" status_name || strIn "open" status_name ||
          strIn "specified" status_name || strIn "to do" status_name then
    { g with planned := g.planned ++ [wp] }
  else
    { g with planned := g.planned ++ [wp] }

/-- `group_by_status(work_packages)` (report_formatter.py lines 85-134). -/
def group_by_status (work_packages : List WorkItem) : Groups :=
  work_packages.foldl groupStep {}

/-- Metrics dictionary built by `calculate_metrics`. -/
structure Metrics where
  total_wps : Nat := 0
  done_count : Nat := 0
  in_progress_count : Nat := 0
  planned_count : Nat := 0
  blocked_count : Nat := 0
  bug_count : Nat := 0
  feature_count : Nat := 0
  total_hours : ℚ := 0
  dev_hours : ℚ := 0
  qa_hours : ℚ := 0
  management_hours : ℚ := 0
deriving Repr, DecidableEq, Inhabited

/-- The status-counter chain of the `for wp in work_packages` loop of
`calculate_metrics` (lines 47-60). -/
def metricsStatusStep (m : Metrics) (wp : WorkItem) : Metrics :=
  let status_name := statusLabel wp
  if status_name = "" || status_name = "unknown" then
    { m with planned_count := m.planned_count + 1 }
  else if strIn "closed" status_name || strIn "done" status_name ||
          strIn "resolved" status_name || strIn "completed" status_name ||
          strIn "finished" status_name then
    { m with done_count := m.done_count + 1 }
  else if strIn "progress" status_name || strIn "development" status_name ||
          strIn "implementing" status_name then
    { m with in_progress_count := m.in_progress_count + 1 }
  else if strIn "blocked" status_name then
    { m with blocked_count := m.blocked_count + 1 }
  else if strIn "new" status_name || strIn "open" status_name ||
          strIn "specified" status_name || strIn "to do" status_name then
    { m with planned_count := m.planned_count + 1 }
  else
    { m with planned_count := m.planned_count + 1 }

/-- The type-counter chain of the same loop (lines 62-67). -/
def metricsTypeStep (m : Metrics) (wp : WorkItem) : Metrics :=
  let wp_type := pyLower (wp.embeddedTypeName.getD "")
  if strIn "bug" wp_type || strIn "defect" wp_type then
    { m with bug_count := m.bug_count + 1 }
  else if strIn "feature" wp_type || strIn "story" wp_type ||
          strIn "task" wp_type then
    { m with feature_count := m.feature_count + 1 }
  else m

/-- Body of the `for wp in work_packages` loop of `calculate_metrics`
(lines 37-67): the status-counter chain followed by the type-counter
chain. -/
def metricsWpStep (m : Metrics) (wp : WorkItem) : Metrics :=
  metricsTypeStep (metricsStatusStep m wp) wp

/-- Body of the `for te in time_entries` loop of `calculate_metrics`
(lines 70-80). -/
def metricsTeStep (m : Metrics) (te : TimeEntry) : Metrics :=
  let hours := te.hours
  let m := { m with total_hours := m.total_hours + hours }
  let activity := pyLower (te.activityName.getD "")
  if strIn "development" activity || strIn "implement" activity then
    { m with dev_hours := m.dev_hours + hours }
  else if strIn "test" activity || strIn "qa" activity then
    { m with qa_hours := m.qa_hours + hours }
  else if strIn "management" activity || strIn "meeting" activity then
    { m with management_hours := m.management_hours + hours }
  else m

/-- `calculate_metrics(work_packages, time_entries)` (lines 12-82). -/
def calculate_metrics (work_packages : List WorkItem) (time_entries : List TimeEntry) : Metrics :=
  time_entries.foldl metricsTeStep
    (work_packages.foldl metricsWpStep { total_wps := work_packages.length })

/-- Relation dictionaries are only ever counted or echoed through; they are
embedded as an uninterpreted payload. -/
structure Relation where
  payload : String := ""
deriving Repr, DecidableEq, Inhabited

/-- Blocker record built by `detect_blockers` (lines 152-158).  `status`
is `Option` because the source reads it with `.get('name')` (no default,
so possibly `None`). -/
structure Blocker where
  id : Option Int
  subject : Option String
  assignee : String
  status : Option String
  reason : String
deriving Repr, DecidableEq

/-- The blocker record built for a single work package. -/
def mkBlocker (wp : WorkItem) : Blocker :=
  { id := wp.id
    subject := wp.subject
    assignee := wp.embeddedAssigneeName.getD "Unassigned"
    status := wp.embeddedStatusName
    reason := "Status marked as blocked" }

/-- The status test of `detect_blockers` (lines 150-151): the lowercased
primary `_embedded.status.name` (no `_links` fallback) contains
`"blocked"`. -/
def blockerPred (wp : WorkItem) : Bool :=
  strIn "blocked" (pyLower (wp.embeddedStatusName.getD ""))

/-- `detect_blockers(work_packages, relations)` (lines 137-160): the status
test reads only the primary `_embedded.status.name` field (no `_links`
fallback), and the `relations` parameter is never read. -/
def detect_blockers (work_packages : List WorkItem)
    (_relations : Option (List Relation) := none) : List Blocker :=
  work_packages.foldl
    (fun blockers wp =>
      if blockerPred wp then blockers ++ [mkBlocker wp]
      else blockers)
    []

/-- The status-indicator selection of `format_weekly_report_markdown`
(lines 252-257).  The three literal strings reproduce the (mojibake)
bytes present in the source file. -/
def statusIndicator (metrics : Metrics) : String :=
  if metrics.blocked_count > 0 then "ðŸ”´ Off track"
  else if metrics.done_count < metrics.in_progress_count then "ðŸŸ¡ At risk"
  else "ðŸŸ¢ On track"

/-- The type-counter test for bugs in `calculate_metrics` (line 64). -/
def typeIsBug (wp : WorkItem) : Bool :=
  strIn "bug" (pyLower (wp.embeddedTypeName.getD "")) ||
  strIn "defect" (pyLower (wp.embeddedTypeName.getD ""))

/-- The type-counter test for features in `calculate_metrics` (line 66). -/
def typeIsFeature (wp : WorkItem) : Bool :=
  strIn "feature" (pyLower (wp.embeddedTypeName.getD "")) ||
  strIn "story" (pyLower (wp.embeddedTypeName.getD "")) ||
  strIn "task" (pyLower (wp.embeddedTypeName.getD ""))

/-- Expected `group_by_status` bucket for a category, as a filter. -/
def gGroup (c : StatusCategory) (l : List WorkItem) : List WorkItem :=
  l.filter fun wp => decide (categorize (statusLabel wp) = c)

/-- Number of items the metrics chain classifies into a category. -/
def mCount (c : StatusCategory) (l : List WorkItem) : Nat :=
  l.countP fun wp => decide (metricsCategorize (statusLabel wp) = c)

/-- Number of items counted into `bug_count`. -/
def bugCount (l : List WorkItem) : Nat := l.countP typeIsBug

/-- Number of items counted into `feature_count` (the `elif` branch:
feature keywords, but not already counted as a bug). -/
def featureCount (l : List WorkItem) : Nat :=
  l.countP fun wp => !typeIsBug wp && typeIsFeature wp

lemma metricsCategorize_eq (s : String) :
    metricsCategorize s = if categorize s = .de_scoped then .planned else categorize s := by
  unfold metricsCategorize categorize
  repeat' split <;> simp_all

lemma metricsCategorize_ne_de_scoped (s : String) :
    metricsCategorize s ≠ .de_scoped := by
  rw [metricsCategorize_eq]
  rcases h : categorize s <;> simp [h]

lemma groupStep_eq (g : Groups) (wp : WorkItem) :
    groupStep g wp =
      match categorize (statusLabel wp) with
      | .done => { g with done := g.done ++ [wp] }
      | .in_progress => { g with in_progress := g.in_progress ++ [wp] }
      | .planned => { g with planned := g.planned ++ [wp] }
      | .blocked => { g with blocked := g.blocked ++ [wp] }
      | .de_scoped => { g with de_scoped := g.de_scoped ++ [wp] } := by
  unfold groupStep categorize
  repeat' split <;> simp_all

lemma foldl_groupStep (l : List WorkItem) : ∀ g : Groups,
    l.foldl groupStep g =
      { done := g.done ++ gGroup .done l
        in_progress := g.in_progress ++ gGroup .in_progress l
        planned := g.planned ++ gGroup .planned l
        blocked := g.blocked ++ gGroup .blocked l
        de_scoped := g.de_scoped ++ gGroup .de_scoped l
        other := g.other } := by
  induction l with
  | nil => intro g; simp [gGroup]
  | cons wp l ih =>
    intro g
    rw [List.foldl_cons, ih (groupStep g wp), groupStep_eq]
    rcases h : categorize (statusLabel wp) <;>
      simp [gGroup, List.filter_cons, h]

lemma group_by_status_eq (l : List WorkItem) :
    group_by_status l =
      { done := gGroup .done l
        in_progress := gGroup .in_progress l
        planned := gGroup .planned l
        blocked := gGroup .blocked l
        de_scoped := gGroup .de_scoped l
        other := [] } := by
  unfold group_by_status
  rw [foldl_groupStep]
  rfl

lemma metricsStatusStep_eq (m : Metrics) (wp : WorkItem) :
    metricsStatusStep m wp =
      match metricsCategorize (statusLabel wp) with
      | .done => { m with done_count := m.done_count + 1 }
      | .in_progress => { m with in_progress_count := m.in_progress_count + 1 }
      | .blocked => { m with blocked_count := m.blocked_count + 1 }
      | .planned => { m with planned_count := m.planned_count + 1 }
      | .de_scoped => { m with planned_count := m.planned_count + 1 } := by
  unfold metricsStatusStep metricsCategorize
  repeat' split <;> simp_all
  all_goals split_ifs at * <;> simp_all

lemma metricsTypeStep_eq (m : Metrics) (wp : WorkItem) :
    metricsTypeStep m wp =
      if typeIsBug wp then { m with bug_count := m.bug_count + 1 }
      else if typeIsFeature wp then { m with feature_count := m.feature_count + 1 }
      else m := by
  unfold metricsTypeStep typeIsBug typeIsFeature
  repeat' split <;> simp_all

lemma metricsWpStep_fields (m : Metrics) (wp : WorkItem) :
    (metricsWpStep m wp).total_wps = m.total_wps ∧
    (metricsWpStep m wp).done_count
      = m.done_count + (if metricsCategorize (statusLabel wp) = .done then 1 else 0) ∧
    (metricsWpStep m wp).in_progress_count
      = m.in_progress_count + (if metricsCategorize (statusLabel wp) = .in_progress then 1 else 0) ∧
    (metricsWpStep m wp).planned_count
      = m.planned_count + (if metricsCategorize (statusLabel wp) = .planned then 1 else 0) ∧
    (metricsWpStep m wp).blocked_count
      = m.blocked_count + (if metricsCategorize (statusLabel wp) = .blocked then 1 else 0) ∧
    (metricsWpStep m wp).bug_count
      = m.bug_count + (if typeIsBug wp then 1 else 0) ∧
    (metricsWpStep m wp).feature_count
      = m.feature_count + (if !typeIsBug wp && typeIsFeature wp then 1 else 0) := by
  have hde := metricsCategorize_ne_de_scoped (statusLabel wp)
  rcases h : metricsCategorize (statusLabel wp) <;>
    [skip; skip; skip; skip; exact absurd h hde] <;>
  by_cases hb : typeIsBug wp <;> by_cases hf : typeIsFeature wp <;>
    simp [metricsWpStep, metricsTypeStep_eq, metricsStatusStep_eq, h, hb, hf]

lemma metricsTeStep_counts (m : Metrics) (te : TimeEntry) :
    (metricsTeStep m te).total_wps = m.total_wps ∧
    (metricsTeStep m te).done_count = m.done_count ∧
    (metricsTeStep m te).in_progress_count = m.in_progress_count ∧
    (metricsTeStep m te).planned_count = m.planned_count ∧
    (metricsTeStep m te).blocked_count = m.blocked_count ∧
    (metricsTeStep m te).bug_count = m.bug_count ∧
    (metricsTeStep m te).feature_count = m.feature_count := by
  simp only [metricsTeStep]
  repeat' split <;> simp_all

lemma foldl_metricsWpStep (l : List WorkItem) : ∀ m : Metrics,
    (l.foldl metricsWpStep m).total_wps = m.total_wps ∧
    (l.foldl metricsWpStep m).done_count = m.done_count + mCount .done l ∧
    (l.foldl metricsWpStep m).in_progress_count = m.in_progress_count + mCount .in_progress l ∧
    (l.foldl metricsWpStep m).planned_count = m.planned_count + mCount .planned l ∧
    (l.foldl metricsWpStep m).blocked_count = m.blocked_count + mCount .blocked l ∧
    (l.foldl metricsWpStep m).bug_count = m.bug_count + bugCount l ∧
    (l.foldl metricsWpStep m).feature_count = m.feature_count + featureCount l := by
  induction l with
  | nil => intro m; simp [mCount, bugCount, featureCount]
  | cons wp l ih =>
    intro m
    obtain ⟨hf0, hf1, hf2, hf3, hf4, hf5, hf6⟩ := metricsWpStep_fields m wp
    obtain ⟨hi0, hi1, hi2, hi3, hi4, hi5, hi6⟩ := ih (metricsWpStep m wp)
    refine ⟨?_, ?_, ?_, ?_, ?_, ?_, ?_⟩ <;>
      simp only [List.foldl_cons, hi0, hi1, hi2, hi3, hi4, hi5, hi6,
        hf0, hf1, hf2, hf3, hf4, hf5, hf6,
        mCount, bugCount, featureCount, List.countP_cons]
    · by_cases h : metricsCategorize (statusLabel wp) = .done <;> simp [h] <;> omega
    · by_cases h : metricsCategorize (statusLabel wp) = .in_progress <;> simp [h] <;> omega
    · by_cases h : metricsCategorize (statusLabel wp) = .planned <;> simp [h] <;> omega
    · by_cases h : metricsCategorize (statusLabel wp) = .blocked <;> simp [h] <;> omega
    · by_cases h : typeIsBug wp <;> simp [h] <;> omega
    · by_cases h : (!typeIsBug wp && typeIsFeature wp) = true <;> simp [h] <;> omega

lemma foldl_metricsTeStep (tes : List TimeEntry) : ∀ m : Metrics,
    (tes.foldl metricsTeStep m).total_wps = m.total_wps ∧
    (tes.foldl metricsTeStep m).done_count = m.done_count ∧
    (tes.foldl metricsTeStep m).in_progress_count = m.in_progress_count ∧
    (tes.foldl metricsTeStep m).planned_count = m.planned_count ∧
    (tes.foldl metricsTeStep m).blocked_count = m.blocked_count ∧
    (tes.foldl metricsTeStep m).bug_count = m.bug_count ∧
    (tes.foldl metricsTeStep m).feature_count = m.feature_count := by
  induction tes with
  | nil => intro m; simp
  | cons te tes ih =>
    intro m
    obtain ⟨hf0, hf1, hf2, hf3, hf4, hf5, hf6⟩ := metricsTeStep_counts m te
    obtain ⟨hi0, hi1, hi2, hi3, hi4, hi5, hi6⟩ := ih (metricsTeStep m te)
    exact ⟨by rw [List.foldl_cons, hi0, hf0], by rw [List.foldl_cons, hi1, hf1],
      by rw [List.foldl_cons, hi2, hf2], by rw [List.foldl_cons, hi3, hf3],
      by rw [List.foldl_cons, hi4, hf4], by rw [List.foldl_cons, hi5, hf5],
      by rw [List.foldl_cons, hi6, hf6]⟩

lemma calculate_metrics_counts (wps : List WorkItem) (tes : List TimeEntry) :
    (calculate_metrics wps tes).total_wps = wps.length ∧
    (calculate_metrics wps tes).done_count = mCount .done wps ∧
    (calculate_metrics wps tes).in_progress_count = mCount .in_progress wps ∧
    (calculate_metrics wps tes).planned_count = mCount .planned wps ∧
    (calculate_metrics wps tes).blocked_count = mCount .blocked wps ∧
    (calculate_metrics wps tes).bug_count = bugCount wps ∧
    (calculate_metrics wps tes).feature_count = featureCount wps := by
  unfold calculate_metrics
  obtain ⟨hw0, hw1, hw2, hw3, hw4, hw5, hw6⟩ :=
    foldl_metricsWpStep wps { total_wps := wps.length }
  obtain ⟨ht0, ht1, ht2, ht3, ht4, ht5, ht6⟩ :=
    foldl_metricsTeStep tes (wps.foldl metricsWpStep { total_wps := wps.length })
  rw [ht0, ht1, ht2, ht3, ht4, ht5, ht6, hw0, hw1, hw2, hw3, hw4, hw5, hw6]
  simp

lemma categorize_iff (s : String) :
    (metricsCategorize s = .done ↔ categorize s = .done) ∧
    (metricsCategorize s = .in_progress ↔ categorize s = .in_progress) ∧
    (metricsCategorize s = .blocked ↔ categorize s = .blocked) ∧
    (metricsCategorize s = .planned ↔ (categorize s = .planned ∨ categorize s = .de_scoped)) := by
  rw [metricsCategorize_eq]
  rcases h : categorize s <;> simp [h]

lemma gGroup_length (c : StatusCategory) (l : List WorkItem) :
    (gGroup c l).length = l.countP fun wp => decide (categorize (statusLabel wp) = c) := by
  rw [gGroup, ← List.countP_eq_length_filter]

lemma mCount_done (l : List WorkItem) : mCount .done l = (gGroup .done l).length := by
  rw [gGroup_length, mCount]
  exact List.countP_congr fun wp _ => by
    simpa using (categorize_iff (statusLabel wp)).1

lemma mCount_in_progress (l : List WorkItem) :
    mCount .in_progress l = (gGroup .in_progress l).length := by
  rw [gGroup_length, mCount]
  exact List.countP_congr fun wp _ => by
    simpa using (categorize_iff (statusLabel wp)).2.1

lemma mCount_blocked (l : List WorkItem) : mCount .blocked l = (gGroup .blocked l).length := by
  rw [gGroup_length, mCount]
  exact List.countP_congr fun wp _ => by
    simpa using (categorize_iff (statusLabel wp)).2.2.1

lemma mCount_planned (l : List WorkItem) :
    mCount .planned l = (gGroup .planned l).length + (gGroup .de_scoped l).length := by
  rw [gGroup_length, gGroup_length, mCount]
  induction l with
  | nil => rfl
  | cons wp l ih =>
    have h := (categorize_iff (statusLabel wp)).2.2.2
    rcases hc : categorize (statusLabel wp) <;>
      simp [List.countP_cons, hc, h, ih] <;> omega

lemma mCount_sum (l : List WorkItem) :
    mCount .done l + mCount .in_progress l + mCount .planned l + mCount .blocked l
      = l.length := by
  induction l with
  | nil => rfl
  | cons wp l ih =>
    rcases h : metricsCategorize (statusLabel wp) with _ | _ | _ | _ | _
    case de_scoped => exact absurd h (metricsCategorize_ne_de_scoped _)
    all_goals simp [mCount, List.countP_cons, h] at ih ⊢ <;> omega

lemma gGroup_sum (l : List WorkItem) :
    (gGroup .done l).length + (gGroup .in_progress l).length + (gGroup .planned l).length
      + (gGroup .blocked l).length + (gGroup .de_scoped l).length = l.length := by
  simp only [gGroup_length]
  induction l with
  | nil => rfl
  | cons wp l ih =>
    rcases h : categorize (statusLabel wp) <;>
      simp [List.countP_cons, h] at ih ⊢ <;> omega

lemma bug_feature_le (l : List WorkItem) : bugCount l + featureCount l ≤ l.length := by
  induction l with
  | nil => simp [bugCount, featureCount]
  | cons wp l ih =>
    by_cases h : typeIsBug wp <;> by_cases h2 : typeIsFeature wp <;>
      simp [bugCount, featureCount, List.countP_cons, h, h2] at ih ⊢ <;> omega

lemma detect_blockers_foldl (l : List WorkItem) : ∀ acc : List Blocker,
    l.foldl (fun blockers wp =>
      if blockerPred wp then blockers ++ [mkBlocker wp] else blockers) acc
      = acc ++ (l.filter blockerPred).map mkBlocker := by
  induction l with
  | nil => intro acc; simp
  | cons wp l ih =>
    intro acc
    by_cases h : blockerPred wp <;>
      simp [List.foldl_cons, List.filter_cons, h, ih]

/-! ### Claim C2 — metrics counters versus grouping sizes -/

/-- C2 counterexample: for a single work item with status `"Rejected"`,
`calculate_metrics` counts it as planned (`planned_count = 1`) while
`group_by_status` puts it in `de_scoped`, so the planned group is empty:
the two applications of the classification rule are not consistent. -/
theorem C2_counterexample_rejected :
    (calculate_metrics [({ embeddedStatusName := some "Rejected" } : WorkItem)]
        []).planned_count = 1 ∧
    ((group_by_status [({ embeddedStatusName := some "Rejected" } : WorkItem)]).planned).length
        = 0 ∧
    ((group_by_status [({ embeddedStatusName := some "Rejected" } : WorkItem)]).de_scoped).length
        = 1 := by
  refine ⟨?_, ?_, ?_⟩ <;> decide

/-- C2 (amended): for every item list (and any time entries),
`done_count`, `in_progress_count` and `blocked_count` equal the sizes of
the corresponding groups of `group_by_status`, while `planned_count`
equals the planned-group size PLUS the de-scoped-group size, because the
metrics chain has no rejected/cancelled branch and counts such items as
planned. -/
theorem C2_metrics_vs_grouping (wps : List WorkItem) (tes : List TimeEntry) :
    (calculate_metrics wps tes).done_count = (group_by_status wps).done.length ∧
    (calculate_metrics wps tes).in_progress_count = (group_by_status wps).in_progress.length ∧
    (calculate_metrics wps tes).blocked_count = (group_by_status wps).blocked.length ∧
    (calculate_metrics wps tes).planned_count
      = (group_by_status wps).planned.length + (group_by_status wps).de_scoped.length := by
  obtain ⟨-, h1, h2, h3, h4, -, -⟩ := calculate_metrics_counts wps tes
  rw [group_by_status_eq, h1, h2, h3, h4, mCount_done, mCount_in_progress,
    mCount_blocked, mCount_planned]
  exact ⟨rfl, rfl, rfl, rfl⟩

/-! ### Claim C5 — status indicator of the markdown report -/

/-- C5 counterexample: a single work item with status `"Done but blocked"`
is returned by `detect_blockers` (its primary status label contains
`"blocked"`), yet the report status is the On-track string, because the
indicator tests `metrics['blocked_count']`, and the metrics chain
classifies this label as done (the done keywords are checked first). -/
theorem C5_counterexample_detector_vs_count :
    detect_blockers [({ embeddedStatusName := some "Done but blocked" } : WorkItem)] none
        ≠ [] ∧
    statusIndicator
        (calculate_metrics [({ embeddedStatusName := some "Done but blocked" } : WorkItem)] [])
      = "ðŸŸ¢ On track" := by
  refine ⟨?_, ?_⟩ <;> decide

/-- C5 (amended): the indicator is driven by the metrics `blocked_count`
(equivalently: whether the blocked GROUP is non-empty), not by the blocker
detector: if the blocked group is non-empty the status is the Off-track
string; otherwise it is the At-risk string when `done_count` is strictly
below `in_progress_count`, and the On-track string otherwise. -/
theorem C5_status_indicator (wps : List WorkItem) (tes : List TimeEntry) :
    ((group_by_status wps).blocked ≠ [] →
      statusIndicator (calculate_metrics wps tes) = "ðŸ”´ Off track") ∧
    ((group_by_status wps).blocked = [] →
      (calculate_metrics wps tes).done_count < (calculate_metrics wps tes).in_progress_count →
      statusIndicator (calculate_metrics wps tes) = "ðŸŸ¡ At risk") ∧
    ((group_by_status wps).blocked = [] →
      ¬ (calculate_metrics wps tes).done_count < (calculate_metrics wps tes).in_progress_count →
      statusIndicator (calculate_metrics wps tes) = "ðŸŸ¢ On track") := by
  obtain ⟨-, -, -, -, hb, -, -⟩ := calculate_metrics_counts wps tes
  have hlen : (calculate_metrics wps tes).blocked_count = (group_by_status wps).blocked.length := by
    rw [hb, mCount_blocked, group_by_status_eq]
  refine ⟨fun hne => ?_, fun he hlt => ?_, fun he hge => ?_⟩
  · have : (group_by_status wps).blocked.length ≠ 0 := by
      simpa [List.length_eq_zero] using hne
    rw [statusIndicator, if_pos (by omega : (calculate_metrics wps tes).blocked_count > 0)]
  · have : (calculate_metrics wps tes).blocked_count = 0 := by simp [hlen, he]
    rw [statusIndicator, if_neg (by omega), if_pos hlt]
  · have : (calculate_metrics wps tes).blocked_count = 0 := by simp [hlen, he]
    rw [statusIndicator, if_neg (by omega), if_neg hge]

/-- C5 witness: a concrete instantiation of the amended theorem — one item
with status `"Blocked"` makes the blocked group non-empty and the status
the Off-track string. -/
theorem C5_status_indicator_witness :
    statusIndicator
        (calculate_metrics [({ embeddedStatusName := some "Blocked" } : WorkItem)] [])
      = "ðŸ”´ Off track" :=
  (C5_status_indicator [({ embeddedStatusName := some "Blocked" } : WorkItem)] []).1
    (by decide)

/-! ### Claim C6 — grouping is a partition into the five categories -/

/-- The disjunction of every keyword test of the `group_by_status`
classification chain: a resolved label "matches none of the keyword
groups" exactly when this is `false`. -/
def matchesAnyKeyword (s : String) : Bool :=
  strIn "closed" s || strIn "done" s || strIn "resolved" s || strIn "completed" s ||
  strIn "finished" s || strIn "progress" s || strIn "development" s ||
  strIn "implementing" s || strIn "blocked" s || strIn "rejected" s ||
  strIn "cancelled" s || strIn "new" s || strIn "open" s || strIn "specified" s ||
  strIn "to do" s

lemma categorize_of_no_keyword (s : String) (h : matchesAnyKeyword s = false) :
    categorize s = .planned := by
  unfold matchesAnyKeyword at h
  simp only [Bool.or_eq_false_iff] at h
  unfold categorize
  simp_all

/-- C6: every work item is put into exactly one of the five category
buckets of `group_by_status` (their sizes sum to the input length and
every input item is a member of one of them); any item whose resolved
label is empty or `"unknown"` goes to `planned`; any item whose resolved
label matches NONE of the keyword groups of the chain also goes to
`planned` (the default branch); and the `other` bucket is empty for every
input. -/
theorem C6_grouping_partition (wps : List WorkItem) :
    (group_by_status wps).other = [] ∧
    (group_by_status wps).done.length + (group_by_status wps).in_progress.length
      + (group_by_status wps).planned.length + (group_by_status wps).blocked.length
      + (group_by_status wps).de_scoped.length = wps.length ∧
    (∀ wp ∈ wps,
      wp ∈ (group_by_status wps).done ∨ wp ∈ (group_by_status wps).in_progress ∨
      wp ∈ (group_by_status wps).planned ∨ wp ∈ (group_by_status wps).blocked ∨
      wp ∈ (group_by_status wps).de_scoped) ∧
    (∀ wp ∈ wps, (statusLabel wp = "" ∨ statusLabel wp = "unknown") →
      wp ∈ (group_by_status wps).planned) ∧
    (∀ wp ∈ wps, matchesAnyKeyword (statusLabel wp) = false →
      wp ∈ (group_by_status wps).planned) := by
  rw [group_by_status_eq]
  refine ⟨rfl, gGroup_sum wps, fun wp hmem => ?_, fun wp hmem hlab => ?_,
    fun wp hmem hkw => ?_⟩
  · have hin : ∀ c, categorize (statusLabel wp) = c → wp ∈ gGroup c wps := by
      intro c hc
      exact List.mem_filter.mpr ⟨hmem, by simp [hc]⟩
    rcases h : categorize (statusLabel wp)
    · exact Or.inl (hin _ h)
    · exact Or.inr (Or.inl (hin _ h))
    · exact Or.inr (Or.inr (Or.inl (hin _ h)))
    · exact Or.inr (Or.inr (Or.inr (Or.inl (hin _ h))))
    · exact Or.inr (Or.inr (Or.inr (Or.inr (hin _ h))))
  · have hc : categorize (statusLabel wp) = .planned := by
      unfold categorize
      rcases hlab with h | h <;> simp [h]
    exact List.mem_filter.mpr ⟨hmem, by simp [hc]⟩
  · have hc : categorize (statusLabel wp) = .planned :=
      categorize_of_no_keyword _ hkw
    exact List.mem_filter.mpr ⟨hmem, by simp [hc]⟩

/-- C6 witness: the item with no status fields resolves to the empty label
and lands in the planned bucket; an item labelled `"Triage"` matches none
of the keyword groups and also lands in the planned bucket; the `other`
bucket is empty. -/
theorem C6_grouping_partition_witness :
    (group_by_status [({} : WorkItem)]).other = [] ∧
    ({} : WorkItem) ∈ (group_by_status [({} : WorkItem)]).planned ∧
    ({ embeddedStatusName := some "Triage" } : WorkItem) ∈
      (group_by_status [({ embeddedStatusName := some "Triage" } : WorkItem)]).planned :=
  ⟨(C6_grouping_partition [({} : WorkItem)]).1,
    (C6_grouping_partition [({} : WorkItem)]).2.2.2.1 {} (by decide) (Or.inl (by decide)),
    (C6_grouping_partition [({ embeddedStatusName := some "Triage" } : WorkItem)]).2.2.2.2
      ({ embeddedStatusName := some "Triage" } : WorkItem) (by decide) (by decide)⟩

/-! ### Claim C7 — metrics conservation -/

/-- C7: for every list of work items and any time entries,
`done_count + in_progress_count + planned_count + blocked_count` equals
`total_wps`, which equals the length of the input list.  The equality is
exact: the metrics chain has no de-scoped counter and counts
rejected/cancelled items as planned, so nothing is missing from the sum. -/
theorem C7_metrics_conservation (wps : List WorkItem) (tes : List TimeEntry) :
    (calculate_metrics wps tes).done_count + (calculate_metrics wps tes).in_progress_count
      + (calculate_metrics wps tes).planned_count + (calculate_metrics wps tes).blocked_count
      = (calculate_metrics wps tes).total_wps ∧
    (calculate_metrics wps tes).total_wps = wps.length := by
  obtain ⟨h0, h1, h2, h3, h4, -, -⟩ := calculate_metrics_counts wps tes
  rw [h0, h1, h2, h3, h4]
  exact ⟨mCount_sum wps, rfl⟩

/-! ### Claim C8 — blocker detection -/

/-- C8: `detect_blockers` returns exactly the blocker records of the items
whose primary (embedded) status label contains `"blocked"`
case-insensitively, in input order; the result does not depend on the
`relations` argument at all; and every returned record carries the literal
reason `"Status marked as blocked"`. -/
theorem C8_blocker_detection (wps : List WorkItem) (r₁ r₂ : Option (List Relation)) :
    detect_blockers wps r₁ = (wps.filter blockerPred).map mkBlocker ∧
    detect_blockers wps r₁ = detect_blockers wps r₂ ∧
    ∀ b ∈ detect_blockers wps r₁, b.reason = "Status marked as blocked" := by
  have h : detect_blockers wps r₁ = (wps.filter blockerPred).map mkBlocker := by
    unfold detect_blockers
    simpa using detect_blockers_foldl wps []
  refine ⟨h, rfl, fun b hb => ?_⟩
  rw [h] at hb
  obtain ⟨wp, -, rfl⟩ := List.mem_map.mp hb
  rfl

/-- C8 witness: concrete run — one blocked item and one done item, two
different relations arguments. -/
theorem C8_blocker_detection_witness :
    detect_blockers
        [({ embeddedStatusName := some "Blocked", subject := some "x" } : WorkItem),
         ({ embeddedStatusName := some "Done" } : WorkItem)] none
      = [mkBlocker ({ embeddedStatusName := some "Blocked", subject := some "x" } : WorkItem)] ∧
    (mkBlocker ({ embeddedStatusName := some "Blocked", subject := some "x" } : WorkItem)).reason
      = "Status marked as blocked" := by
  have h := C8_blocker_detection
    [({ embeddedStatusName := some "Blocked", subject := some "x" } : WorkItem),
     ({ embeddedStatusName := some "Done" } : WorkItem)] none (some [])
  refine ⟨?_, ?_⟩
  · rw [h.1]; decide
  · exact h.2.2 _ (by rw [h.1]; decide)

/-! ### Claim C10 — type counters -/

/-- C10: the type counters are mutually exclusive with priority to bugs:
`bug_count + feature_count ≤ total_wps` for every input, and a single item
whose type label matches the bug keywords (`bug`/`defect`) yields
`bug_count = 1` and `feature_count = 0` even when the label also matches
the feature keywords. -/
theorem C10_type_counters (wps : List WorkItem) (tes : List TimeEntry) :
    (calculate_metrics wps tes).bug_count + (calculate_metrics wps tes).feature_count
      ≤ (calculate_metrics wps tes).total_wps ∧
    ∀ wp : WorkItem, typeIsBug wp = true →
      (calculate_metrics [wp] []).bug_count = 1 ∧
      (calculate_metrics [wp] []).feature_count = 0 := by
  obtain ⟨h0, -, -, -, -, h5, h6⟩ := calculate_metrics_counts wps tes
  refine ⟨by rw [h0, h5, h6]; exact bug_feature_le wps, fun wp hw => ?_⟩
  obtain ⟨-, -, -, -, -, g5, g6⟩ := calculate_metrics_counts [wp] []
  rw [g5, g6]
  constructor
  · simp [bugCount, List.countP_cons, hw]
  · simp [featureCount, List.countP_cons, hw]

/-- C10 witness: an item typed `"Bug and feature"` matches the bug
keywords, so it counts once as a bug and never as a feature. -/
theorem C10_type_counters_witness :
    (calculate_metrics [({ embeddedTypeName := some "Bug and feature" } : WorkItem)] []).bug_count
      = 1 ∧
    (calculate_metrics [({ embeddedTypeName := some "Bug and feature" } : WorkItem)] []).feature_count
      = 0 :=
  (C10_type_counters [] []).2
    ({ embeddedTypeName := some "Bug and feature" } : WorkItem) (by decide)

/-! ### Timestamps

Python naive `datetime` values are embedded as civil timestamps.
Comparison and `timedelta` subtraction of naive datetimes are modelled on
the microsecond timeline via the standard civil-from-days ordinal, which
is order-isomorphic to lexicographic comparison of the validated fields —
exactly the order Python uses. -/

structure Timestamp where
  year : Nat
  month : Nat
  day : Nat
  hour : Nat := 0
  minute : Nat := 0
  second : Nat := 0
  usec : Nat := 0
deriving Repr, DecidableEq, Inhabited

/-- Days since 0000-03-01 of a civil date (standard civil calendar
algorithm, valid for the parser-validated range year ≥ 1). -/
def toOrdinal (t : Timestamp) : Nat :=
  let y := if t.month ≤ 2 then t.year - 1 else t.year
  let mp := if t.month ≤ 2 then t.month + 9 else t.month - 3
  365 * y + y / 4 - y / 100 + y / 400 + (153 * mp + 2) / 5 + (t.day - 1)

/-- Microseconds-on-the-timeline of a timestamp. -/
def toUsec (t : Timestamp) : Nat :=
  (toOrdinal t * 86400 + t.hour * 3600 + t.minute * 60 + t.second) * 1000000 + t.usec

/-- Python `a <= b` on naive datetimes. -/
def tsLe (a b : Timestamp) : Bool := toUsec a ≤ toUsec b

/-- `from_dt <= dt <= to_dt` as the filter writes it. -/
def inWindow (from_dt to_dt dt : Timestamp) : Bool :=
  tsLe from_dt dt && tsLe dt to_dt

/-- `cutoff_date = to_dt - timedelta(days=30)` and then
`cutoff_date <= dt <= to_dt` (weekly_reports.py lines 169-170).  Since the
parsers only produce years ≥ 1, the natural subtraction never truncates. -/
def cutoffCheck (to_dt dt : Timestamp) : Bool :=
  (toUsec to_dt - 30 * 86400 * 1000000 ≤ toUsec dt) && (toUsec dt ≤ toUsec to_dt)

/-- Leap-year test of the proleptic Gregorian calendar. -/
def isLeap (y : Nat) : Bool := y % 4 = 0 && (y % 100 ≠ 0 || y % 400 = 0)

/-- Days in a month. -/
def daysInMonth (y m : Nat) : Nat :=
  if m = 2 then (if isLeap y then 29 else 28)
  else if m = 4 || m = 6 || m = 9 || m = 11 then 30
  else 31

/-- Digit value of an ASCII digit character. -/
def digitVal (c : Char) : Nat := c.toNat - 48

/-- Read exactly `n` ASCII digits into a number. -/
def readDigitsAux : Nat → Nat → List Char → Option (Nat × List Char)
  | 0, acc, cs => some (acc, cs)
  | n + 1, acc, c :: cs =>
    if c.isDigit then readDigitsAux n (acc * 10 + digitVal c) cs else none
  | _ + 1, _, [] => none

def readDigits (n : Nat) (cs : List Char) : Option (Nat × List Char) :=
  readDigitsAux n 0 cs

/-- Read one or two ASCII digits (as `strptime` `%m`/`%d` accept). -/
def read12 : List Char → Option (Nat × List Char)
  | [] => none
  | [c] => if c.isDigit then some (digitVal c, []) else none
  | c :: d :: cs =>
    if c.isDigit then
      if d.isDigit then some (digitVal c * 10 + digitVal d, cs)
      else some (digitVal c, d :: cs)
    else none

def expectChar (c : Char) : List Char → Option (List Char)
  | [] => none
  | c' :: cs => if c' = c then some cs else none

/-- Field validation done by the `datetime` constructor. -/
def mkValidTimestamp (y mo d h mi s us : Nat) : Option Timestamp :=
  if 1 ≤ y ∧ y ≤ 9999 ∧ 1 ≤ mo ∧ mo ≤ 12 ∧ 1 ≤ d ∧ d ≤ daysInMonth y mo ∧
     h ≤ 23 ∧ mi ≤ 59 ∧ s ≤ 59 ∧ us ≤ 999999 then
    some ⟨y, mo, d, h, mi, s, us⟩
  else none

/-- `datetime.strptime(s, "%Y-%m-%d")`: exactly four digits of year,
one or two digits of month and day, whole string consumed, and the
resulting calendar date must be valid. -/
def pyStrptimeYMD (s : String) : Option Timestamp := do
  let (y, cs) ← readDigits 4 s.toList
  let cs ← expectChar '-' cs
  let (mo, cs) ← read12 cs
  let cs ← expectChar '-' cs
  let (d, cs) ← read12 cs
  if cs = [] then mkValidTimestamp y mo d 0 0 0 0 else none

/-- Fractional seconds: one to six digits, scaled to microseconds. -/
def readFrac (cs : List Char) : Option (Nat × List Char) :=
  let ds := cs.takeWhile Char.isDigit
  if 1 ≤ ds.length ∧ ds.length ≤ 6 then
    some ((ds.foldl (fun a c => a * 10 + digitVal c) 0) * 10 ^ (6 - ds.length),
      cs.dropWhile Char.isDigit)
  else none

/-- A `±HH:MM[:SS]` UTC-offset suffix; the value is validated and then
discarded, since the filter immediately strips it with
`.replace(tzinfo=None)`. -/
def parseOffsetTail (cs : List Char) : Option Unit := do
  let (oh, cs) ← readDigits 2 cs
  let cs ← expectChar ':' cs
  let (om, cs) ← readDigits 2 cs
  match cs with
  | [] => if oh ≤ 23 ∧ om ≤ 59 then some () else none
  | ':' :: cs => do
    let (os, cs) ← readDigits 2 cs
    if cs = [] ∧ oh ≤ 23 ∧ om ≤ 59 ∧ os ≤ 59 then some () else none
  | _ => none

/-- Seconds, fraction and offset after `"HH:MM"`. -/
def parseTimeTail (y mo d h mi : Nat) (cs : List Char) : Option Timestamp :=
  match cs with
  | [] => mkValidTimestamp y mo d h mi 0 0
  | '+' :: cs => do
    let () ← parseOffsetTail cs
    mkValidTimestamp y mo d h mi 0 0
  | '-' :: cs => do
    let () ← parseOffsetTail cs
    mkValidTimestamp y mo d h mi 0 0
  | ':' :: cs => do
    let (s, cs) ← readDigits 2 cs
    match cs with
    | [] => mkValidTimestamp y mo d h mi s 0
    | '+' :: cs => do
      let () ← parseOffsetTail cs
      mkValidTimestamp y mo d h mi s 0
    | '-' :: cs => do
      let () ← parseOffsetTail cs
      mkValidTimestamp y mo d h mi s 0
    | '.' :: cs => do
      let (us, cs) ← readFrac cs
      match cs with
      | [] => mkValidTimestamp y mo d h mi s us
      | '+' :: cs => do
        let () ← parseOffsetTail cs
        mkValidTimestamp y mo d h mi s us
      | '-' :: cs => do
        let () ← parseOffsetTail cs
        mkValidTimestamp y mo d h mi s us
      | _ => none
    | _ => none
  | _ => none

/-- `datetime.fromisoformat` on the strings the filter feeds it (after the
`Z` replacement): `YYYY-MM-DD`, optionally followed by a separator and
`HH:MM[:SS[.ffffff]]` and an optional numeric UTC offset.  The resulting
naive fields keep the wall-clock reading, and the offset is dropped —
exactly what `.replace(tzinfo=None)` leaves behind. -/
def pyFromIso (s : String) : Option Timestamp := do
  let (y, cs) ← readDigits 4 s.toList
  let cs ← expectChar '-' cs
  let (mo, cs) ← readDigits 2 cs
  let cs ← expectChar '-' cs
  let (d, cs) ← readDigits 2 cs
  match cs with
  | [] => mkValidTimestamp y mo d 0 0 0 0
  | sep :: cs =>
    if sep = 'T' ∨ sep = ' ' ∨ sep = 't' then do
      let (h, cs) ← readDigits 2 cs
      let cs ← expectChar ':' cs
      let (mi, cs) ← readDigits 2 cs
      parseTimeTail y mo d h mi cs
    else none

/-- Python `s.replace('Z', '+00:00')`. -/
def replaceZ (s : String) : String :=
  String.mk (List.flatten (s.toList.map fun c => if c = 'Z' then "+00:00".toList else [c]))

/-! ### The relevance filter (weekly_reports.py lines 137-188) -/

def closed_status_keywords : List String :=
  ["closed", "done", "resolved", "completed", "finished"]

/-- `wp.get('_embedded', {}).get('status', {}).get('name', '').lower()`
(line 143) — the filter reads only the primary field. -/
def relevanceStatusName (wp : WorkItem) : String :=
  pyLower (wp.embeddedStatusName.getD "")

/-- `any(keyword in status_name for keyword in closed_status_keywords)`
(line 145). -/
def is_closed_status (wp : WorkItem) : Bool :=
  closed_status_keywords.any fun k => strIn k (relevanceStatusName wp)

/-- `wp.get('closedOn', '') or wp.get('closedAt', '')` (line 176). -/
def pickClosedOn (wp : WorkItem) : String :=
  if wp.closedOn ≠ "" then wp.closedOn else wp.closedAt

/-- The `try` body of the per-item relevance loop (lines 147-181).
`none` models an exception escaping the `try` (a timestamp failing to
parse); `some b` is the normal outcome: step 1 tests `updatedAt` against
`[from_dt, to_dt]`, step 2 tests `createdAt`, and for closed-status items
step 3 re-tests `updatedAt` against `[to_dt - 30 days, to_dt]` and step 4
tests the explicit closed date.  Steps 3-4 are both inside
`if is_closed_status:`. -/
def relevanceBody (from_dt to_dt : Timestamp) (wp : WorkItem) : Option Bool :=
  let closedDateCheck : Option Bool :=
    if pickClosedOn wp ≠ "" then
      match pyFromIso (replaceZ (pickClosedOn wp)) with
      | none => none
      | some cd => if inWindow from_dt to_dt cd then some true else some false
    else some false
  let step3 : Option Bool :=
    if is_closed_status wp then
      if wp.updatedAt ≠ "" then
        match pyFromIso (replaceZ wp.updatedAt) with
        | none => none
        | some u => if cutoffCheck to_dt u then some true else closedDateCheck
      else closedDateCheck
    else some false
  let step2 : Option Bool :=
    if wp.createdAt ≠ "" then
      match pyFromIso (replaceZ wp.createdAt) with
      | none => none
      | some c => if inWindow from_dt to_dt c then some true else step3
    else step3
  if wp.updatedAt ≠ "" then
    match pyFromIso (replaceZ wp.updatedAt) with
    | none => none
    | some u => if inWindow from_dt to_dt u then some true else step2
  else step2

/-- One iteration of the relevance loop: the item is kept when the `try`
body reaches an `append`, and on a parse exception it is kept exactly when
its status matches the closed keywords (lines 183-188). -/
def is_relevant (from_dt to_dt : Timestamp) (wp : WorkItem) : Bool :=
  match relevanceBody from_dt to_dt wp with
  | some b => b
  | none => is_closed_status wp

lemma pyFromIso_empty : pyFromIso "" = none := rfl

lemma replaceZ_empty : replaceZ "" = "" := rfl

/-! ### Claim C1 — window inclusivity at the end boundary -/

/-- C1: evaluation of the filter at the claimed boundary points, for the
window `2025-12-02 .. 2025-12-08`.  `strptime` parses both window dates at
midnight.  An item updated exactly at `from` 00:00 is relevant, as the
claim states; but an item updated at `to` 23:59 is NOT relevant — the
comparison `updated_dt <= to_dt` is against midnight of the to-date, so
the code drops the whole final day after 00:00 and contradicts the
claimed inclusive end boundary (an item one second past the to-date is
likewise not relevant, where claim and code agree). -/
theorem C1_end_boundary :
    pyStrptimeYMD "2025-12-02" = some ⟨2025, 12, 2, 0, 0, 0, 0⟩ ∧
    pyStrptimeYMD "2025-12-08" = some ⟨2025, 12, 8, 0, 0, 0, 0⟩ ∧
    is_relevant ⟨2025, 12, 2, 0, 0, 0, 0⟩ ⟨2025, 12, 8, 0, 0, 0, 0⟩
      { embeddedStatusName := some "In progress",
        updatedAt := "2025-12-02T00:00:00Z", createdAt := "2025-11-01T10:00:00Z" } = true ∧
    is_relevant ⟨2025, 12, 2, 0, 0, 0, 0⟩ ⟨2025, 12, 8, 0, 0, 0, 0⟩
      { embeddedStatusName := some "In progress",
        updatedAt := "2025-12-08T23:59:00Z", createdAt := "2025-10-01T10:00:00Z" } = false ∧
    is_relevant ⟨2025, 12, 2, 0, 0, 0, 0⟩ ⟨2025, 12, 8, 0, 0, 0, 0⟩
      { embeddedStatusName := some "In progress",
        updatedAt := "2025-12-09T00:00:00Z", createdAt := "2025-10-01T10:00:00Z" } = false := by
  refine ⟨?_, ?_, ?_, ?_, ?_⟩ <;> decide

/-! ### Claim C3 — the explicit-closed-date step of the cascade -/

/-- C3 counterexample: a work item with status `"New"`, last touched in
January, created in January, but with `closedOn` inside the window
`2025-12-02 .. 2025-12-08`.  It fails steps 1-3 of the cascade and its
explicit closed date falls within `[from, to]`, so the claim says it is
relevant — but the code tests `closedOn`/`closedAt` only INSIDE the
`if is_closed_status:` block, and the item is not relevant. -/
theorem C3_counterexample :
    is_closed_status
        ({ embeddedStatusName := some "New", updatedAt := "2025-01-01T00:00:00Z",
           createdAt := "2025-01-01T00:00:00Z",
           closedOn := "2025-12-05T10:00:00Z" } : WorkItem) = false ∧
    pyFromIso (replaceZ "2025-01-01T00:00:00Z") = some ⟨2025, 1, 1, 0, 0, 0, 0⟩ ∧
    inWindow ⟨2025, 12, 2, 0, 0, 0, 0⟩ ⟨2025, 12, 8, 0, 0, 0, 0⟩
      ⟨2025, 1, 1, 0, 0, 0, 0⟩ = false ∧
    pyFromIso (replaceZ "2025-12-05T10:00:00Z") = some ⟨2025, 12, 5, 10, 0, 0, 0⟩ ∧
    inWindow ⟨2025, 12, 2, 0, 0, 0, 0⟩ ⟨2025, 12, 8, 0, 0, 0, 0⟩
      ⟨2025, 12, 5, 10, 0, 0, 0⟩ = true ∧
    is_relevant ⟨2025, 12, 2, 0, 0, 0, 0⟩ ⟨2025, 12, 8, 0, 0, 0, 0⟩
      { embeddedStatusName := some "New", updatedAt := "2025-01-01T00:00:00Z",
        createdAt := "2025-01-01T00:00:00Z",
        closedOn := "2025-12-05T10:00:00Z" } = false := by
  refine ⟨?_, ?_, ?_, ?_, ?_, ?_⟩ <;> decide

/-- C3 (amended): the explicit-closed-date step applies only to items
whose status label matches the closed keywords.  For every item that
fails steps 1-3 — its `updatedAt` is absent or parses outside both
`[from, to]` and `[to - 30 days, to]`, and its `createdAt` is absent or
parses outside `[from, to]` — IF the status matches the closed keyword
set and the explicit closed-date field (`closedOn`, falling back to
`closedAt`) parses inside `[from, to]`, the item is relevant. -/
theorem C3_closed_date_step (from_dt to_dt : Timestamp) (wp : WorkItem) (cd : Timestamp)
    (hupd : wp.updatedAt = "" ∨ ∃ u, pyFromIso (replaceZ wp.updatedAt) = some u ∧
        inWindow from_dt to_dt u = false ∧ cutoffCheck to_dt u = false)
    (hcre : wp.createdAt = "" ∨ ∃ c, pyFromIso (replaceZ wp.createdAt) = some c ∧
        inWindow from_dt to_dt c = false)
    (hclosed : is_closed_status wp = true)
    (hcd : pyFromIso (replaceZ (pickClosedOn wp)) = some cd)
    (hwin : inWindow from_dt to_dt cd = true) :
    is_relevant from_dt to_dt wp = true := by
  have hne : pickClosedOn wp ≠ "" := by
    intro h
    rw [h, replaceZ_empty, pyFromIso_empty] at hcd
    exact Option.noConfusion hcd
  unfold is_relevant relevanceBody
  rcases hupd with hu | ⟨u, hu1, hu2, hu3⟩
  · rcases hcre with hc | ⟨c, hc1, hc2⟩
    · simp [hu, hc, hclosed, hne, hcd, hwin]
    · have hcne : wp.createdAt ≠ "" := by
        intro h
        rw [h, replaceZ_empty, pyFromIso_empty] at hc1
        exact Option.noConfusion hc1
      simp [hu, hcne, hc1, hc2, hclosed, hne, hcd, hwin]
  · have hune : wp.updatedAt ≠ "" := by
      intro h
      rw [h, replaceZ_empty, pyFromIso_empty] at hu1
      exact Option.noConfusion hu1
    rcases hcre with hc | ⟨c, hc1, hc2⟩
    · simp [hune, hu1, hu2, hu3, hc, hclosed, hne, hcd, hwin]
    · have hcne : wp.createdAt ≠ "" := by
        intro h
        rw [h, replaceZ_empty, pyFromIso_empty] at hc1
        exact Option.noConfusion hc1
      simp [hune, hu1, hu2, hu3, hcne, hc1, hc2, hclosed, hne, hcd, hwin]

/-- C3 witness: a concrete closed item, untouched for over two months,
whose `closedOn` lies inside the window — the amended step marks it
relevant. -/
theorem C3_closed_date_step_witness :
    is_relevant ⟨2025, 12, 2, 0, 0, 0, 0⟩ ⟨2025, 12, 8, 0, 0, 0, 0⟩
      { embeddedStatusName := some "Closed", updatedAt := "2025-10-01T00:00:00Z",
        createdAt := "2025-09-01T00:00:00Z",
        closedOn := "2025-12-05T10:00:00Z" } = true :=
  C3_closed_date_step ⟨2025, 12, 2, 0, 0, 0, 0⟩ ⟨2025, 12, 8, 0, 0, 0, 0⟩
    { embeddedStatusName := some "Closed", updatedAt := "2025-10-01T00:00:00Z",
      createdAt := "2025-09-01T00:00:00Z", closedOn := "2025-12-05T10:00:00Z" }
    ⟨2025, 12, 5, 10, 0, 0, 0⟩
    (Or.inr ⟨⟨2025, 10, 1, 0, 0, 0, 0⟩, by decide, by decide, by decide⟩)
    (Or.inr ⟨⟨2025, 9, 1, 0, 0, 0, 0⟩, by decide, by decide⟩)
    (by decide) (by decide) (by decide)

/-! ### The collaborator client and the record fetcher -/

/-- Embedding of a project dictionary (fields read by the report code). -/
structure Project where
  id : Option Int := none
  name : Option String := none
  descriptionRaw : String := ""
deriving Repr, DecidableEq, Inhabited

/-- Membership dictionaries are only counted and echoed through. -/
structure Member where
  name : String := ""
deriving Repr, DecidableEq, Inhabited

/-- The paginated-envelope shape of `client.get_work_packages`:
`result.get("total", 0)` and `result["_embedded"]["elements"]`. -/
structure PageEnvelope where
  total : Nat
  elements : List WorkItem
deriving Repr, DecidableEq, Inhabited

/-- The OpenProject client collaborator, at its boundary: each operation
either returns a payload or raises (modelled as `Except.error`).
`get_work_packages` takes project id, serialized filters, offset and page
size. -/
structure Client where
  get_project : Nat → Except String Project
  get_work_packages : Nat → String → Nat → Nat → Except String PageEnvelope
  get_memberships : Nat → Except String (List Member)
  get_time_entries : String → Except String (List TimeEntry)
  get_relations : Int → Except String (List Relation)

/-- Outcome of the pagination loop. -/
inductive FetchOutcome where
  | ok (wps : List WorkItem)
  | clientError (e : String)
  | outOfFuel
deriving Repr, DecidableEq, Inhabited

/-- The `while True` pagination loop of `_fetch_all_project_work_packages`
(weekly_reports.py lines 67-87) over an abstract page oracle.  The Python
loop is unbounded, so it is embedded with explicit fuel; `outOfFuel` marks
exhaustion (never reached against a consistent server).  The offset list
records one entry per issued page request.  Per iteration: fetch the page;
if it has no elements, stop; otherwise accumulate the elements and stop
when `offset + page_size >= total`, else continue at `offset + page_size`.
A client exception propagates (`clientError`). -/
def fetchPagesLoop (get : Nat → Except String PageEnvelope) (page_size : Nat) :
    Nat → Nat → FetchOutcome × List Nat
  | 0, _ => (.outOfFuel, [])
  | fuel + 1, offset =>
    match get offset with
    | .error e => (.clientError e, [offset])
    | .ok env =>
      if env.elements = [] then (.ok [], [offset])
      else if env.total ≤ offset + page_size then (.ok env.elements, [offset])
      else
        match fetchPagesLoop get page_size fuel (offset + page_size) with
        | (.ok rest, offs) => (.ok (env.elements ++ rest), offset :: offs)
        | (out, offs) => (out, offset :: offs)

/-- `json.dumps([{"status": {"operator": "*", "values": []}}])` — the
mandatory all-statuses filter (lines 64-65). -/
def wpFiltersJson : String :=
  "[\x7b\"status\": \x7b\"operator\": \"*\", \"values\": []\x7d\x7d]"

/-- `_fetch_all_project_work_packages(client, project_id)` (lines 40-89):
the pagination loop with page size 500, starting at offset 0, passing the
all-statuses filter on every request. -/
def fetch_all_project_work_packages (client : Client) (project_id : Nat) (fuel : Nat) :
    FetchOutcome × List Nat :=
  fetchPagesLoop (fun off => client.get_work_packages project_id wpFiltersJson off 500)
    500 fuel 0

/-- A well-behaved server over a fixed record list: it reports the true
total and serves the requested slice. -/
def sliceServer (records : List WorkItem) (offset page_size : Nat) : PageEnvelope :=
  { total := records.length, elements := (records.drop offset).take page_size }

/-- A client whose work-package listing is a `sliceServer` over a fixed
record list (the other operations are unused stubs for the fetcher). -/
def mkSliceClient (records : List WorkItem) : Client :=
  { get_project := fun _ => .error "unused"
    get_work_packages := fun _ _ offset page_size => .ok (sliceServer records offset page_size)
    get_memberships := fun _ => .ok []
    get_time_entries := fun _ => .ok []
    get_relations := fun _ => .ok [] }

lemma fetchPagesLoop_slice (l : List WorkItem) (ps : Nat) (hps : 0 < ps) :
    ∀ fuel offset, offset < l.length → l.length ≤ offset + ps * fuel →
      fetchPagesLoop (fun off => .ok (sliceServer l off ps)) ps fuel offset
        = (.ok (l.drop offset), List.range' offset ((l.length - offset - 1) / ps + 1) ps) := by
  intro fuel
  induction fuel with
  | zero => intro offset h1 h2; omega
  | succ fuel ih =>
    intro offset h1 h2
    have hne : ¬ (l.drop offset).take ps = [] := by
      intro hnil
      have hl := congrArg List.length hnil
      simp only [List.length_take, List.length_drop, List.length_nil] at hl
      omega
    by_cases hlast : l.length ≤ offset + ps
    · have htake : (l.drop offset).take ps = l.drop offset := by
        apply List.take_of_length_le
        simp only [List.length_drop]
        omega
      have hpages : (l.length - offset - 1) / ps + 1 = 1 := by
        have hx : l.length - offset - 1 < ps := by omega
        rw [Nat.div_eq_of_lt hx]
      rw [hpages]
      simp [fetchPagesLoop, sliceServer, hne, hlast, htake, List.range']
    · have h1' : offset + ps < l.length := by omega
      have h2' : l.length ≤ (offset + ps) + ps * fuel := by
        have hms : ps * (fuel + 1) = ps * fuel + ps := Nat.mul_succ ps fuel
        omega
      have hjoin : (l.drop offset).take ps ++ l.drop (offset + ps) = l.drop offset := by
        have hdd : l.drop (offset + ps) = (l.drop offset).drop ps := by
          rw [List.drop_drop]
        rw [hdd]
        exact List.take_append_drop ps (l.drop offset)
      have hpages : (l.length - offset - 1) / ps + 1
          = ((l.length - (offset + ps) - 1) / ps + 1) + 1 := by
        have ha : ps ≤ l.length - offset - 1 := by omega
        rw [Nat.div_eq_sub_div hps ha]
        have hsub : l.length - offset - 1 - ps = l.length - (offset + ps) - 1 := by omega
        rw [hsub]
      rw [hpages]
      have hrec := ih (offset + ps) h1' h2'
      simp only [sliceServer] at hrec
      simp [fetchPagesLoop, sliceServer, hne, hlast, hrec, hjoin, List.range']

/-! ### Claim C4 — pagination exactness -/

/-- C4: against a consistent server holding 1234 records with page size
500, the fetcher issues exactly the three page requests at offsets 0, 500
and 1000 and returns precisely the server's 1234 records concatenated in
order (hence no duplicates and nothing missing); for a total of exactly
500 it issues a single request at offset 0 and returns the 500 records
(no duplicate or missing final page).  Termination needs only enough fuel
for the data (any `fuel ≥ pages` gives the same result): the loop stops
when `offset + page_size ≥ total` or a page is empty. -/
theorem C4_pagination (l₁ l₂ : List WorkItem) (pid₁ pid₂ fuel₁ fuel₂ : Nat)
    (h₁ : l₁.length = 1234) (h₂ : l₂.length = 500)
    (hf₁ : 3 ≤ fuel₁) (hf₂ : 1 ≤ fuel₂) :
    fetch_all_project_work_packages (mkSliceClient l₁) pid₁ fuel₁
      = (.ok l₁, [0, 500, 1000]) ∧
    fetch_all_project_work_packages (mkSliceClient l₂) pid₂ fuel₂
      = (.ok l₂, [0]) := by
  constructor
  · have h := fetchPagesLoop_slice l₁ 500 (by omega) fuel₁ 0 (by omega) (by omega)
    have hdef : fetch_all_project_work_packages (mkSliceClient l₁) pid₁ fuel₁
        = fetchPagesLoop (fun off => .ok (sliceServer l₁ off 500)) 500 fuel₁ 0 := rfl
    rw [hdef, h, h₁, List.drop_zero]
    have h3 : (1234 - 0 - 1) / 500 + 1 = 3 := by norm_num
    have hr : List.range' 0 3 500 = [0, 500, 1000] := by decide
    rw [h3, hr]
  · have h := fetchPagesLoop_slice l₂ 500 (by omega) fuel₂ 0 (by omega) (by omega)
    have hdef : fetch_all_project_work_packages (mkSliceClient l₂) pid₂ fuel₂
        = fetchPagesLoop (fun off => .ok (sliceServer l₂ off 500)) 500 fuel₂ 0 := rfl
    rw [hdef, h, h₂, List.drop_zero]
    have h3 : (500 - 0 - 1) / 500 + 1 = 1 := by norm_num
    have hr : List.range' 0 1 500 = [0] := by decide
    rw [h3, hr]

/-- C4 witness: concrete record lists of lengths 1234 and 500 with fuels
3 and 1. -/
theorem C4_pagination_witness :
    fetch_all_project_work_packages (mkSliceClient (List.replicate 1234 ({} : WorkItem))) 5 3
      = (.ok (List.replicate 1234 ({} : WorkItem)), [0, 500, 1000]) ∧
    fetch_all_project_work_packages (mkSliceClient (List.replicate 500 ({} : WorkItem))) 5 1
      = (.ok (List.replicate 500 ({} : WorkItem)), [0]) :=
  C4_pagination (List.replicate 1234 {}) (List.replicate 500 {}) 5 5 3 1
    (by rw [List.length_replicate]) (by rw [List.length_replicate]) (by omega) (by omega)

/-! ### The report renderer (report_formatter.py lines 163-438) -/

/-- Python `str(opt)` where a missing value prints as `None`. -/
def optIdStr (o : Option Int) : String := (o.map toString).getD "None"

/-- Python interpolation of a possibly-`None` string. -/
def pyOptStr (o : Option String) : String := o.getD "None"

def pad2 (n : Nat) : String := if n < 10 then "0" ++ toString n else toString n

def pad4 (n : Nat) : String :=
  if n < 10 then "000" ++ toString n
  else if n < 100 then "00" ++ toString n
  else if n < 1000 then "0" ++ toString n
  else toString n

/-- `dt.strftime('%Y-%m-%d')`. -/
def fmtYMD (t : Timestamp) : String :=
  pad4 t.year ++ "-" ++ pad2 t.month ++ "-" ++ pad2 t.day

/-- Python `f"{x:.1f}"` on an hours value, modelled by truncation to one
decimal place (Python rounds; no claim inspects these renderings). -/
def fmt1 (q : ℚ) : String :=
  let n : Int := ⌊q * 10⌋
  toString (n / 10) ++ "." ++ toString (n % 10)

/-- `format_work_package_row(wp)` (lines 163-195).  Modelling note: the
embedding merges a null-valued `dueDate` (key present, value `None`) with
an absent key, so this row renders it as `"N/A"` where Python's
`due_date or updated_date` would fall back to the updated date; no claim
inspects this cell. -/
def format_work_package_row (wp : WorkItem) : String :=
  let wp_id := (wp.id.map toString).getD "N/A"
  let subject := (wp.subject.getD "No subject").take 50
  let assignee_name := wp.embeddedAssigneeName.getD "Unassigned"
  let due_date := wp.dueDate.getD "N/A"
  let updated_date :=
    if wp.updatedAt ≠ "" then
      match pyFromIso (replaceZ wp.updatedAt) with
      | some d => fmtYMD d
      | none => "N/A"
    else "N/A"
  let status := wp.embeddedStatusName.getD "Unknown"
  let wp_type := wp.embeddedTypeName.getD "Task"
  "| [" ++ wp_type ++ " #" ++ wp_id ++ "] | " ++ subject ++ " | " ++ assignee_name
    ++ " | " ++ (if due_date = "" then updated_date else due_date) ++ " | " ++ status ++ " |"

/-- `format_weekly_report_markdown(...)` (lines 198-394): the appends of
the source in order, joined with newlines.  The status-indicator
computation of lines 252-257 is the separate `statusIndicator`. -/
def format_weekly_report_markdown (project : Project) (work_packages : List WorkItem)
    (time_entries : List TimeEntry) (members : List Member)
    (from_date to_date : String) (sprint_goal : Option String := none)
    (team_name : Option String := none) (relations : Option (List Relation) := none) :
    String :=
  let metrics := calculate_metrics work_packages time_entries
  let grouped_wps := group_by_status work_packages
  let blockers := detect_blockers work_packages relations
  let status := statusIndicator metrics
  let report : List String :=
    ["# WEEKLY REPORT - AGILE SCRUM\n",
     "*Automatically generated from OpenProject*\n",
     "## A. GENERAL INFORMATION\n",
     "| Report Week | Value |",
     "|-------------|-------|",
     "| From Date - To Date | " ++ from_date ++ " - " ++ to_date ++ " |",
     "| Team/Squad | " ++ team_name.getD "N/A" ++ " |",
     "| Product/Module | " ++ project.name.getD "N/A" ++ " |",
     "| Project ID | #" ++ (project.id.map toString).getD "N/A" ++ " |",
     "| Sprint Goal | " ++ sprint_goal.getD "N/A" ++ " |",
     "",
     "## B. EXECUTIVE SUMMARY\n",
     "**Progress vs Sprint Goal:** " ++ status ++ "\n",
     "**Key Deliverables (Done):**"]
    ++ (let done_wps := grouped_wps.done.take 3
        if done_wps.isEmpty then ["- No work packages completed yet"]
        else done_wps.enum.map fun p =>
          toString (p.1 + 1) ++ ". #" ++ optIdStr p.2.id ++ " - " ++ p.2.subject.getD "N/A")
    ++ [""]
    ++ (if blockers.isEmpty then ["**Main Impediment:** None\n"]
        else ["**Main Impediment:** " ++ toString blockers.length
          ++ " work package(s) currently blocked\n"])
    ++ ["**Support Needed/Decisions:** _(Requires manual update)_\n",
        "## C. DELIVERY & BACKLOG MOVEMENT\n",
        "### 1) Completed Work (Done)\n"]
    ++ (if grouped_wps.done.isEmpty then ["_No work packages completed this week._"]
        else ["| Ticket/Story | Short Description | Owner | Done Date | Status |",
              "|--------------|-------------------|-------|-----------|--------|"]
          ++ grouped_wps.done.map format_work_package_row)
    ++ ["",
        "### 2) Work In Progress\n"]
    ++ (if grouped_wps.in_progress.isEmpty then ["_No work packages in progress._"]
        else ["| Ticket/Story | Short Description | Owner | ETA | Status |",
              "|--------------|-------------------|-------|-----|--------|"]
          ++ grouped_wps.in_progress.map format_work_package_row)
    ++ ["",
        "### 3) Planned Work (Not Started)\n"]
    ++ (if grouped_wps.planned.isEmpty then ["_No planned work packages._"]
        else ["| Ticket/Story | Short Description | Owner | ETA | Status |",
              "|--------------|-------------------|-------|-----|--------|"]
          ++ grouped_wps.planned.map format_work_package_row)
    ++ [""]
    ++ (if grouped_wps.de_scoped.isEmpty then []
        else ["### 4) De-scoped Work (Stopped/Reprioritized)\n",
              "| Ticket | Reason | Status |",
              "|--------|--------|--------|"]
          ++ (grouped_wps.de_scoped.map fun wp =>
              "| #" ++ (wp.id.map toString).getD "N/A" ++ " "
                ++ (wp.subject.getD "No subject").take 40
                ++ " | _(Requires update)_ | " ++ wp.embeddedStatusName.getD "Unknown" ++ " |")
          ++ [""])
    ++ ["## D. RESOURCES & EXECUTION CAPACITY\n",
        "**Team Size:** " ++ toString members.length ++ " member(s)\n",
        "**Weekly Capacity:** " ++ fmt1 metrics.total_hours ++ " person-hours\n",
        "**Staff Changes:** _(Requires manual update)_\n"]
    ++ (if 0 < metrics.total_hours then
          ["**Time Distribution by Activity Type:**\n",
           "| Type | Hours | % |",
           "|------|-------|---|",
           "| Development | " ++ fmt1 metrics.dev_hours ++ " | "
             ++ fmt1 (metrics.dev_hours / metrics.total_hours * 100) ++ "% |",
           "| QA/Testing | " ++ fmt1 metrics.qa_hours ++ " | "
             ++ fmt1 (metrics.qa_hours / metrics.total_hours * 100) ++ "% |",
           "| Management | " ++ fmt1 metrics.management_hours ++ " | "
             ++ fmt1 (metrics.management_hours / metrics.total_hours * 100) ++ "% |",
           ""]
        else [])
    ++ ["## E. IMPEDIMENTS & DEPENDENCIES\n"]
    ++ (if blockers.isEmpty then ["_No impediments._\n"]
        else ["### Impediments (Direct Blockers)\n",
              "| Description | Severity | Owner Handling | Status |",
              "|------------|----------|----------------|--------|"]
          ++ (blockers.map fun b =>
              "| #" ++ optIdStr b.id ++ " " ++ (b.subject.getD "").take 40 ++ " | High | "
                ++ b.assignee ++ " | " ++ pyOptStr b.status ++ " |")
          ++ [""])
    ++ ["## F. QUALITY & SYSTEM STABILITY\n",
        "**Bugs Created This Week:** " ++ toString metrics.bug_count ++ "\n",
        "**Bugs Closed This Week:** _(Requires further analysis)_\n",
        "**Test Coverage:** _(Requires manual update)_\n",
        "**Incident/Outage:** _(Requires manual update)_\n",
        "## G. NEXT WEEK PLAN\n",
        "**Top Priorities:**"]
    ++ (let next_week_wps := grouped_wps.planned.take 5
        if next_week_wps.isEmpty then ["_(Planning required)_"]
        else next_week_wps.enum.map fun p =>
          toString (p.1 + 1) ++ ". #" ++ optIdStr p.2.id ++ " " ++ p.2.subject.getD "N/A"
            ++ " (" ++ p.2.embeddedAssigneeName.getD "Unassigned"
            ++ " - ETA: " ++ p.2.dueDate.getD "TBD" ++ ")")
    ++ ["",
        "## H. SPRINT HEALTH & IMPROVEMENTS\n",
        "**What Went Well:** _(Requires update from retro)_\n",
        "**What Needs Improvement:** _(Requires update from retro)_\n",
        "**Action Items:** _(Requires update from retro)_\n",
        "---\n",
        "## APPENDIX: EXECUTIVE SUMMARY FOR LEADERSHIP\n",
        "**Status:** " ++ status,
        "**Done:** " ++ toString metrics.done_count ++ " work packages",
        "**In progress:** " ++ toString metrics.in_progress_count ++ " work packages",
        "**Planned:** " ++ toString metrics.planned_count ++ " work packages",
        "**Main blockers:** " ++ toString blockers.length ++ " blocked items",
        "**Hours logged:** " ++ fmt1 metrics.total_hours ++ "h"]
  String.intercalate "\n" report

/-- The `project` sub-object of the structured-data rendering. -/
structure ReportProjectData where
  id : Option Int
  name : Option String
  description : String
deriving Repr, DecidableEq, Inhabited

/-- The dictionary returned by `format_report_data_json` (lines 420-438),
with the `work_packages` sub-dictionary flattened into one field per
category key. -/
structure ReportData where
  project : ReportProjectData
  metrics : Metrics
  work_packages_done : List WorkItem
  work_packages_in_progress : List WorkItem
  work_packages_planned : List WorkItem
  work_packages_blocked : List WorkItem
  work_packages_de_scoped : List WorkItem
  time_entries : List TimeEntry
  members : List Member
  blockers : List Blocker
  relations : List Relation
deriving Repr, DecidableEq, Inhabited

/-- `format_report_data_json(...)` (lines 397-438). -/
def format_report_data_json (project : Project) (work_packages : List WorkItem)
    (time_entries : List TimeEntry) (members : List Member)
    (relations : Option (List Relation) := none) : ReportData :=
  let metrics := calculate_metrics work_packages time_entries
  let grouped_wps := group_by_status work_packages
  let blockers := detect_blockers work_packages relations
  { project := { id := project.id, name := project.name, description := project.descriptionRaw }
    metrics := metrics
    work_packages_done := grouped_wps.done
    work_packages_in_progress := grouped_wps.in_progress
    work_packages_planned := grouped_wps.planned
    work_packages_blocked := grouped_wps.blocked
    work_packages_de_scoped := grouped_wps.de_scoped
    time_entries := time_entries
    members := members
    blockers := blockers
    relations := relations.getD [] }

/-- Modelled from the spec: `json.dumps(data, indent=2, ensure_ascii=False)`
is standard-library serialization of the structured report data; it is
modelled as an injective textual rendering of the structure (no claim
inspects the serialized text). -/
def jsonDumpReport (d : ReportData) : String := reprStr d

/-! ### The report-generation entry point (weekly_reports.py lines 93-266) -/

/-- Modelled from the spec: `format_error` lives in
`src/utils/formatting.py`, which is not among the provided sources.  The
spec (§6) specifies a failure as a short human-readable error line
beginning with a failure marker. -/
def format_error (msg : String) : String := "❌ " ++ msg

/-- `GenerateWeeklyReportInput` (weekly_reports.py lines 21-29). -/
structure GenerateWeeklyReportInput where
  project_id : Nat
  from_date : String
  to_date : String
  sprint_goal : Option String := none
  team_name : Option String := none
  format : String := "markdown"
deriving Repr, DecidableEq, Inhabited

/-- One collaborator invocation, recorded for the call trace. -/
inductive CallEvent where
  | getProject (project_id : Nat)
  | getWorkPackages (project_id : Nat) (offset page_size : Nat)
  | getMemberships (project_id : Nat)
  | getTimeEntries (filters : String)
  | getRelations (work_package_id : Int)
deriving Repr, DecidableEq

/-- `json.dumps` of the time-entry filters (lines 205-218). -/
def timeFiltersJson (from_date to_date : String) (project_id : Nat) : String :=
  "[\x7b\"spentOn\": \x7b\"operator\": \"<>d\", \"values\": [\"" ++ from_date
    ++ "\", \"" ++ to_date ++ "\"]\x7d\x7d, \x7b\"project\": \x7b\"operator\": \"=\", \"values\": [\""
    ++ toString project_id ++ "\"]\x7d\x7d]"

/-- One iteration of the best-effort relations loop (lines 228-234): a
missing `id` raises a `KeyError` before the API call (swallowed by the
inner `except`), a failing call is recorded but its error ignored, and a
successful call extends the relation list. -/
def relationsStep (client : Client) (acc : List Relation × List CallEvent) (wp : WorkItem) :
    List Relation × List CallEvent :=
  match wp.id with
  | none => acc
  | some i =>
    match client.get_relations i with
    | .error _ => (acc.1, acc.2 ++ [.getRelations i])
    | .ok rs => (acc.1 ++ rs, acc.2 ++ [.getRelations i])

/-- The relations loop over the first 10 relevant work packages. -/
def collectRelations (client : Client) (wps : List WorkItem) :
    List Relation × List CallEvent :=
  (wps.take 10).foldl (relationsStep client) ([], [])

/-- The data-collection and rendering pipeline of
`_generate_weekly_report_impl` after validation (lines 113-263), paired
with the trace of collaborator calls.  A collaborator `error` is the
exception caught by the outer `except` (line 265), which renders it as a
formatted error string. -/
def reportPipeline (client : Client) (fetchFuel : Nat) (input : GenerateWeeklyReportInput)
    (from_dt to_dt : Timestamp) : String × List CallEvent :=
  match client.get_project input.project_id with
  | .error e => (format_error ("Failed to generate weekly report: " ++ e),
      [.getProject input.project_id])
  | .ok project =>
    match fetch_all_project_work_packages client input.project_id fetchFuel with
    | (.clientError e, offs) =>
      (format_error ("Failed to generate weekly report: " ++ e),
        .getProject input.project_id ::
          offs.map fun o => .getWorkPackages input.project_id o 500)
    | (.outOfFuel, offs) =>
      (format_error "Failed to generate weekly report: fuel exhausted",
        .getProject input.project_id ::
          offs.map fun o => .getWorkPackages input.project_id o 500)
    | (.ok all_work_packages, offs) =>
      let tr1 := CallEvent.getProject input.project_id ::
        (offs.map fun o => CallEvent.getWorkPackages input.project_id o 500)
      let work_packages := all_work_packages.filter (is_relevant from_dt to_dt)
      match client.get_memberships input.project_id with
      | .error e => (format_error ("Failed to generate weekly report: " ++ e),
          tr1 ++ [.getMemberships input.project_id])
      | .ok members =>
        let tr2 := tr1 ++ [CallEvent.getMemberships input.project_id]
        let tf := timeFiltersJson input.from_date input.to_date input.project_id
        match client.get_time_entries tf with
        | .error e => (format_error ("Failed to generate weekly report: " ++ e),
            tr2 ++ [.getTimeEntries tf])
        | .ok time_entries =>
          let tr3 := tr2 ++ [CallEvent.getTimeEntries tf]
          let rel := collectRelations client work_packages
          let tr4 := tr3 ++ rel.2
          if pyLower input.format = "json" then
            (jsonDumpReport (format_report_data_json project work_packages time_entries
                members (some rel.1)), tr4)
          else
            (format_weekly_report_markdown project work_packages time_entries members
                input.from_date input.to_date input.sprint_goal input.team_name
                (some rel.1), tr4)

/-- `_generate_weekly_report_impl(input)` (lines 93-266): obtain the
client (`get_client()` may itself raise — modelled as an `Except`
argument), validate both dates with `strptime('%Y-%m-%d')` (a failure is
the caught `ValueError` of line 107), reject `from_dt > to_dt`, and only
then run the data-collection pipeline.  Every branch returns a string —
no exception crosses this boundary. -/
def generate_weekly_report_impl (getClientRes : Except String Client) (fetchFuel : Nat)
    (input : GenerateWeeklyReportInput) : String × List CallEvent :=
  match getClientRes with
  | .error e => (format_error ("Failed to generate weekly report: " ++ e), [])
  | .ok client =>
    match pyStrptimeYMD input.from_date, pyStrptimeYMD input.to_date with
    | some from_dt, some to_dt =>
      if toUsec to_dt < toUsec from_dt then
        (format_error "from_date must be before or equal to to_date", [])
      else reportPipeline client fetchFuel input from_dt to_dt
    | _, _ => (format_error "Invalid date format. Use YYYY-MM-DD", [])

/-- A collaborator stub whose operations all succeed with empty data. -/
def testClient : Client :=
  { get_project := fun _ => .ok {}
    get_work_packages := fun _ _ _ _ => .ok { total := 0, elements := [] }
    get_memberships := fun _ => .ok []
    get_time_entries := fun _ => .ok []
    get_relations := fun _ => .ok [] }

/-! ### Claim C9 — input-validation error atomicity -/

/-- C9: whenever `from_date` or `to_date` fails to parse as
`strptime('%Y-%m-%d')` would (malformed or an invalid calendar date), or
both parse but `from_dt > to_dt`, the entry point returns a formatted
error string and the collaborator call trace is EMPTY — validation runs
before any fetch.  The entry point is a total function into strings, so no
exception escapes it in any branch. -/
theorem C9_validation (getClientRes : Except String Client) (fetchFuel : Nat)
    (input : GenerateWeeklyReportInput)
    (hbad : pyStrptimeYMD input.from_date = none ∨ pyStrptimeYMD input.to_date = none ∨
      (∃ f t, pyStrptimeYMD input.from_date = some f ∧ pyStrptimeYMD input.to_date = some t ∧
        toUsec t < toUsec f)) :
    ∃ msg : String,
      generate_weekly_report_impl getClientRes fetchFuel input = (format_error msg, []) := by
  unfold generate_weekly_report_impl
  cases getClientRes with
  | error e => exact ⟨"Failed to generate weekly report: " ++ e, rfl⟩
  | ok client =>
    rcases hbad with h | h | ⟨f, t, hf, ht, hlt⟩
    · cases hto : pyStrptimeYMD input.to_date <;>
        exact ⟨"Invalid date format. Use YYYY-MM-DD", by simp [h, hto]⟩
    · cases hfrom : pyStrptimeYMD input.from_date <;>
        exact ⟨"Invalid date format. Use YYYY-MM-DD", by simp [h, hfrom]⟩
    · exact ⟨"from_date must be before or equal to to_date", by simp [hf, ht, hlt]⟩

/-- C9 witness: month 13 is rejected (a strptime `ValueError`), so the
entry point answers with a formatted error and performs no collaborator
call, even against a fully working client. -/
theorem C9_validation_witness :
    ∃ msg : String,
      generate_weekly_report_impl (.ok testClient) 10
          { project_id := 5, from_date := "2025-13-01", to_date := "2025-12-08" }
        = (format_error msg, []) :=
  C9_validation (.ok testClient) 10
    { project_id := 5, from_date := "2025-13-01", to_date := "2025-12-08" }
    (Or.inl (by decide))

end OPMCP
